import Mathlib

/-!
Verification of the fetch-cache-filter pipeline of the super-fpl repository.

The definitions below are a shallow embedding of the Python sources:
  - `src/utils.py`  (class Utils: POSITION_LOOKUP, format_player,
    prepare_analysis_fields, calc_per_min, calc_per_mil, calc_per_90)
  - `src/db.py`     (class Db: get_players_from_db, get_teams_from_db,
    get_fixtures_from_db, insert_players_to_db, generate_uid)
  - `src/api.py`    (class Api: get_players)

Python numbers are modelled with ℤ and ℚ (the quantities involved are exact
decimals), Python dictionaries with structures, the MongoDB day-partitioned
collections with lists of stored records, and fallible Python code (raised
exceptions, the `False` sentinel, falling off the end of a function) with
explicit sum types.
-/

namespace SuperFpl

/-- Python `round(q, n)` modelled over ℚ: round to `n` decimal places. -/
def roundTo (n : ℕ) (q : ℚ) : ℚ := ((round (q * 10 ^ n) : ℤ) : ℚ) / 10 ^ n

/-- The exceptions the pipeline can raise, named after the taxonomy of the
spec: `unknownPositionCode` is the KeyError of the position dictionary
lookup, `divisionByZero` the ZeroDivisionError of the unguarded per-million
division, `upstreamUnavailable` the URLError/timeout of `urllib.request.urlopen`. -/
inductive Err
  | unknownPositionCode
  | divisionByZero
  | upstreamUnavailable
  deriving Repr, DecidableEq

/-- A raw player record as delivered by the upstream bootstrap-static feed,
restricted to the fields `src/utils.py` and `src/db.py` read.  `now_cost` is
the raw integer cost in tenths of a currency unit. -/
structure RawPlayer where
  id : ℕ
  first_name : String
  second_name : String
  now_cost : ℤ
  minutes : ℤ
  goals_scored : ℤ
  assists : ℤ
  clean_sheets : ℤ
  goals_conceded : ℤ
  total_points : ℤ
  saves : ℤ
  bps : ℤ
  creativity : ℚ
  threat : ℚ
  influence : ℚ
  element_type : ℕ
  selected_by_percent : ℚ
  deriving Repr, DecidableEq

/-- An enriched player record: the raw fields the pipeline keeps plus every
derived field written by `Utils.format_player` / `Utils.prepare_analysis_fields`. -/
structure Player where
  id : ℕ
  name : String
  now_cost : ℚ
  minutes : ℤ
  position : String
  selected_by_percent : ℚ
  goal_involvements : ℤ
  bps_per_min : ℚ
  clean_sheets_per_90 : ℚ
  goals_conc_per_90 : ℚ
  goals_scored_per_90 : ℚ
  assists_per_90 : ℚ
  creativity_per_min : ℚ
  threat_per_min : ℚ
  influence_per_min : ℚ
  points_per_min : ℚ
  points_per_90 : ℚ
  points_per_mil : ℚ
  saves_per_90 : ℚ
  deriving Repr, DecidableEq

/-- `Utils.POSITION_LOOKUP[element_type]`: the Python dictionary lookup
{1: GKP, 2: DEF, 3: MID, 4: FWD}; a key outside the table raises KeyError
(`unknownPositionCode`). -/
def POSITION_LOOKUP (element_type : ℕ) : Except Err String :=
  if element_type = 1 then .ok "GKP"
  else if element_type = 2 then .ok "DEF"
  else if element_type = 3 then .ok "MID"
  else if element_type = 4 then .ok "FWD"
  else .error .unknownPositionCode

/-- `Utils.calc_per_min(metric, minutes)`: 0 when minutes == 0, else
round(metric / minutes, 2). -/
def calc_per_min (metric minutes : ℚ) : ℚ :=
  if minutes = 0 then 0 else roundTo 2 (metric / minutes)

/-- `Utils.calc_per_mil(metric, price)`: round(metric / price, 2) with no
zero guard; Python raises ZeroDivisionError when price == 0. -/
def calc_per_mil (metric price : ℚ) : Except Err ℚ :=
  if price = 0 then .error .divisionByZero else .ok (roundTo 2 (metric / price))

/-- `Utils.calc_per_90(metric, minutes)`: 0 when minutes == 0, else
round((metric / minutes) * 90, 2). -/
def calc_per_90 (metric minutes : ℚ) : ℚ :=
  if minutes = 0 then 0 else roundTo 2 (metric / minutes * 90)

/-- `Utils.format_player` followed by `Utils.prepare_analysis_fields`,
in source order: the position dictionary lookup happens first (line 15 of
`src/utils.py`) and can raise KeyError; `points_per_mil` (line 31) divides by
the already-converted `now_cost` and can raise ZeroDivisionError; every other
derived field is a total computation. -/
def format_player (p : RawPlayer) : Except Err Player :=
  match POSITION_LOOKUP p.element_type with
  | .error e => .error e
  | .ok position =>
    match calc_per_mil (p.total_points : ℚ) ((p.now_cost : ℚ) / 10) with
    | .error e => .error e
    | .ok points_per_mil =>
      .ok { id := p.id
          , name := p.first_name ++ " " ++ p.second_name
          , now_cost := (p.now_cost : ℚ) / 10
          , minutes := p.minutes
          , position := position
          , selected_by_percent := p.selected_by_percent
          , goal_involvements := p.goals_scored + p.assists
          , bps_per_min := calc_per_min (p.bps : ℚ) (p.minutes : ℚ)
          , clean_sheets_per_90 := calc_per_90 (p.clean_sheets : ℚ) (p.minutes : ℚ)
          , goals_conc_per_90 := calc_per_90 (p.goals_conceded : ℚ) (p.minutes : ℚ)
          , goals_scored_per_90 := calc_per_90 (p.goals_scored : ℚ) (p.minutes : ℚ)
          , assists_per_90 := calc_per_90 (p.assists : ℚ) (p.minutes : ℚ)
          , creativity_per_min := calc_per_min p.creativity (p.minutes : ℚ)
          , threat_per_min := calc_per_min p.threat (p.minutes : ℚ)
          , influence_per_min := calc_per_min p.influence (p.minutes : ℚ)
          , points_per_min := calc_per_min (p.total_points : ℚ) (p.minutes : ℚ)
          , points_per_90 := calc_per_90 (p.total_points : ℚ) (p.minutes : ℚ)
          , points_per_mil := points_per_mil
          , saves_per_90 := calc_per_90 (p.saves : ℚ) (p.minutes : ℚ) }

/-- A team record as stored by `Db.insert_teams_to_db`: the upstream fields
plus the composite `_id` and the `date_generated` stamp. -/
structure StoredTeam where
  uid : String
  date_generated : String
  id : ℕ
  name : String
  short_name : String
  deriving Repr, DecidableEq

/-- A fixture record as stored by `Db.insert_fixtures_to_db`. -/
structure StoredFixture where
  uid : String
  date_generated : String
  id : ℕ
  team_h : ℕ
  team_a : ℕ
  deriving Repr, DecidableEq

/-- A player record as stored by `Db.insert_players_to_db`: the enriched
player dictionary plus the composite `_id` and the `date_generated` stamp. -/
structure StoredPlayer where
  uid : String
  date_generated : String
  player : Player
  deriving Repr, DecidableEq

/-- The three MongoDB collections (`db.players`, `db.teams`, `db.fixtures`),
each a list of stored records in insertion order. -/
structure DbState where
  players : List StoredPlayer
  teams : List StoredTeam
  fixtures : List StoredFixture
  deriving Repr, DecidableEq

/-- The caller-supplied optional constraints of `Db.get_players_from_db`
(`None` in Python is `none` here). -/
structure FilterSpec where
  min_price : Option ℚ := none
  max_price : Option ℚ := none
  min_minutes_played : Option ℤ := none
  positions : Option (List String) := none
  max_ownership : Option ℚ := none
  deriving Repr, DecidableEq

/-- Lines 58-64 of `src/db.py`: the `now_cost` clause gets a `$gte` bound
exactly when `min_price is not None`. -/
def min_price_ok (o : Option ℚ) (now_cost : ℚ) : Bool :=
  match o with
  | none => true
  | some m => decide (m ≤ now_cost)

/-- Lines 58-66 of `src/db.py`: the `now_cost` clause gets a `$lte` bound
exactly when `max_price is not None`. -/
def max_price_ok (o : Option ℚ) (now_cost : ℚ) : Bool :=
  match o with
  | none => true
  | some m => decide (now_cost ≤ m)

/-- Lines 68-69 of `src/db.py`: `minutes >= min_minutes_played` when given. -/
def min_minutes_ok (o : Option ℤ) (minutes : ℤ) : Bool :=
  match o with
  | none => true
  | some m => decide (m ≤ minutes)

/-- Python `str.upper()` on the ASCII position names: upper-case each
character. -/
def upper (s : String) : String := ⟨s.data.map Char.toUpper⟩

/-- Lines 71-74 of `src/db.py`: a `$or` clause of upper-cased position
equalities is added only when `positions is not None and len(positions) > 0`;
an empty `$or` would match nothing, but the code never builds one. -/
def positions_ok (o : Option (List String)) (position : String) : Bool :=
  match o with
  | none => true
  | some ps =>
    if ps.length = 0 then true
    else ps.any (fun pos => decide (upper pos = position))

/-- Lines 76-77 of `src/db.py`: `selected_by_percent <= max_ownership` when given. -/
def max_ownership_ok (o : Option ℚ) (selected_by_percent : ℚ) : Bool :=
  match o with
  | none => true
  | some m => decide (selected_by_percent ≤ m)

/-- The MongoDB `find` predicate built by `Db.get_players_from_db`: the
conjunction of the `date_generated` partition clause and every clause the
filter spec contributed. -/
def matches_query (f : FilterSpec) (today : String) (s : StoredPlayer) : Bool :=
  decide (s.date_generated = today)
  && min_price_ok f.min_price s.player.now_cost
  && max_price_ok f.max_price s.player.now_cost
  && min_minutes_ok f.min_minutes_played s.player.minutes
  && positions_ok f.positions s.player.position
  && max_ownership_ok f.max_ownership s.player.selected_by_percent

/-- `Db.get_players_from_db`: collect the records matching the query; return
the Python sentinel `False` (here `none`) when the list is empty, else the
non-empty list. -/
def get_players_from_db (f : FilterSpec) (today : String) (st : DbState) :
    Option (List StoredPlayer) :=
  let players := st.players.filter (matches_query f today)
  if players.isEmpty then none else some players

/-- `Db.get_teams_from_db`: all team records of the day, `False` when none. -/
def get_teams_from_db (today : String) (st : DbState) : Option (List StoredTeam) :=
  let teams := st.teams.filter (fun t => decide (t.date_generated = today))
  if teams.isEmpty then none else some teams

/-- `Db.get_fixtures_from_db`: all fixture records of the day, `False` when none. -/
def get_fixtures_from_db (today : String) (st : DbState) : Option (List StoredFixture) :=
  let fixtures := st.fixtures.filter (fun t => decide (t.date_generated = today))
  if fixtures.isEmpty then none else some fixtures

/-- `Db.generate_uid(id)`: `str(id) + "_" + today`. -/
def generate_uid (id : ℕ) (today : String) : String :=
  toString id ++ "_" ++ today

/-- `pymongo save` by `_id`: replace the record carrying the same `_id` if
one exists, else append. -/
def save_player (recs : List StoredPlayer) (r : StoredPlayer) : List StoredPlayer :=
  if recs.any (fun s => decide (s.uid = r.uid)) then
    recs.map (fun s => if s.uid = r.uid then r else s)
  else recs ++ [r]

/-- `Db.insert_players_to_db`: stamp each record with the composite `_id`
and `date_generated = today`, then `save` it. -/
def insert_players_to_db (st : DbState) (today : String) (ps : List Player) : DbState :=
  { st with
    players := ps.foldl
      (fun recs p => save_player recs ⟨generate_uid p.id today, today, p⟩)
      st.players }

/-- The JSON object returned by the bootstrap-static endpoint, restricted to
what `Api.get_players` reads: `elements = none` models a response in which
the key is absent. -/
structure BootstrapData where
  elements : Option (List RawPlayer)
  deriving Repr, DecidableEq

/-- What one `urllib.request.urlopen` call to bootstrap-static would do:
either deliver a parsed body or raise (network error, timeout). -/
inductive RemoteOutcome
  | ok (data : BootstrapData)
  | failure
  deriving Repr, DecidableEq

/-- The four ways the Python `Api.get_players` can leave: return a list of
records, return the sentinel `False`, fall off the end of the function
(Python returns `None`), or propagate an uncaught exception. -/
inductive GetPlayersResult
  | records (ps : List StoredPlayer)
  | noData
  | pyNone
  | raised (e : Err)
  deriving Repr, DecidableEq

/-- `Utils.format_player` applied to each raw element in order; the first
raised exception propagates (lines 43-45 of `src/api.py`), in which case
nothing is inserted. -/
def formatAll : List RawPlayer → Except Err (List Player)
  | [] => .ok []
  | p :: rest =>
    match format_player p with
    | .error e => .error e
    | .ok q =>
      match formatAll rest with
      | .error e => .error e
      | .ok qs => .ok (q :: qs)

/-- `Api.get_players` of `src/api.py`, lines 20-52, with the day, the remote
behaviour and the database state made explicit.  Returns the Python result,
the database state afterwards, and how many remote fetches were performed.
On a cache hit the stored list is returned with no fetch.  On a miss the
remote is consulted once: a raised transport error propagates; a body
without the key `elements` returns `False`; otherwise every element is
enriched and inserted, the cache is re-read into the local variable
`players` — and the function then falls off the end, returning `None`. -/
def get_players (f : FilterSpec) (today : String) (remote : RemoteOutcome)
    (st : DbState) : GetPlayersResult × DbState × ℕ :=
  match get_players_from_db f today st with
  | some players => (.records players, st, 0)
  | none =>
    match remote with
    | .failure => (.raised .upstreamUnavailable, st, 1)
    | .ok data =>
      match data.elements with
      | none => (.noData, st, 1)
      | some elements =>
        match formatAll elements with
        | .error e => (.raised e, st, 1)
        | .ok formatted => (.pyNone, insert_players_to_db st today formatted, 1)

/-! ### Characterisations of the query predicate -/

lemma min_price_ok_iff (o : Option ℚ) (v : ℚ) :
    min_price_ok o v = true ↔ ∀ m, o = some m → m ≤ v := by
  cases o <;> simp [min_price_ok]

lemma max_price_ok_iff (o : Option ℚ) (v : ℚ) :
    max_price_ok o v = true ↔ ∀ m, o = some m → v ≤ m := by
  cases o <;> simp [max_price_ok]

lemma min_minutes_ok_iff (o : Option ℤ) (v : ℤ) :
    min_minutes_ok o v = true ↔ ∀ m, o = some m → m ≤ v := by
  cases o <;> simp [min_minutes_ok]

lemma max_ownership_ok_iff (o : Option ℚ) (v : ℚ) :
    max_ownership_ok o v = true ↔ ∀ m, o = some m → v ≤ m := by
  cases o <;> simp [max_ownership_ok]

lemma positions_ok_iff (o : Option (List String)) (v : String)
    (h : ∀ ps, o = some ps → ps ≠ []) :
    positions_ok o v = true ↔ ∀ ps, o = some ps → ∃ p ∈ ps, upper p = v := by
  cases o with
  | none => simp [positions_ok]
  | some ps =>
    have hlen : ¬ ps.length = 0 := by
      simpa [List.length_eq_zero] using h ps rfl
    simp [positions_ok, hlen, List.any_eq_true]

lemma matches_query_eq_true_iff (f : FilterSpec) (today : String) (s : StoredPlayer)
    (h : ∀ ps, f.positions = some ps → ps ≠ []) :
    matches_query f today s = true ↔
      s.date_generated = today
      ∧ (∀ m, f.min_price = some m → m ≤ s.player.now_cost)
      ∧ (∀ m, f.max_price = some m → s.player.now_cost ≤ m)
      ∧ (∀ m, f.min_minutes_played = some m → m ≤ s.player.minutes)
      ∧ (∀ ps, f.positions = some ps → ∃ p ∈ ps, upper p = s.player.position)
      ∧ (∀ m, f.max_ownership = some m → s.player.selected_by_percent ≤ m) := by
  simp [matches_query, min_price_ok_iff, max_price_ok_iff, min_minutes_ok_iff,
    positions_ok_iff _ _ h, max_ownership_ok_iff, and_assoc]

lemma get_players_from_db_eq_some (f : FilterSpec) (today : String) (st : DbState)
    (l : List StoredPlayer) (h : get_players_from_db f today st = some l) :
    l = st.players.filter (matches_query f today) := by
  by_cases he : (st.players.filter (matches_query f today)).isEmpty <;>
    simp [get_players_from_db, he] at h
  exact h.symm

/-! ### The claims -/

/-- Claim C2: for every stored player collection and every filter
specification (with a given positions list non-empty; the empty list is the
separate claim C10), the filtered read returns exactly the records of the day
that satisfy the conjunction of the given constraints — `now_cost` within
the inclusive price bounds, `minutes` at least the minimum, `position` equal
to one of the upper-cased position entries, `selected_by_percent` at most
the ownership bound — and every absent filter field imposes no constraint. -/
theorem get_players_from_db_filter_semantics (f : FilterSpec) (today : String)
    (st : DbState) (l : List StoredPlayer) (s : StoredPlayer)
    (hpos : ∀ ps, f.positions = some ps → ps ≠ [])
    (h : get_players_from_db f today st = some l) :
    s ∈ l ↔
      s ∈ st.players ∧ s.date_generated = today
      ∧ (∀ m, f.min_price = some m → m ≤ s.player.now_cost)
      ∧ (∀ m, f.max_price = some m → s.player.now_cost ≤ m)
      ∧ (∀ m, f.min_minutes_played = some m → m ≤ s.player.minutes)
      ∧ (∀ ps, f.positions = some ps → ∃ p ∈ ps, upper p = s.player.position)
      ∧ (∀ m, f.max_ownership = some m → s.player.selected_by_percent ≤ m) := by
  rw [get_players_from_db_eq_some f today st l h, List.mem_filter,
    matches_query_eq_true_iff f today s hpos]

/-- Claim C9: each of the three collection reads returns the no-data signal
(the Python `False`, modelled as `none`) exactly when zero stored records
match the day partition and the constraints, never returns the empty list,
and returns the non-empty list of matching records otherwise. -/
theorem db_reads_distinguish_miss_from_empty (f : FilterSpec) (today : String)
    (st : DbState) :
    (get_players_from_db f today st ≠ some []
      ∧ (get_players_from_db f today st = none
          ↔ st.players.filter (matches_query f today) = [])
      ∧ ∀ l, get_players_from_db f today st = some l →
          l ≠ [] ∧ l = st.players.filter (matches_query f today))
  ∧ (get_teams_from_db today st ≠ some []
      ∧ (get_teams_from_db today st = none
          ↔ st.teams.filter (fun t => decide (t.date_generated = today)) = [])
      ∧ ∀ l, get_teams_from_db today st = some l →
          l ≠ [] ∧ l = st.teams.filter (fun t => decide (t.date_generated = today)))
  ∧ (get_fixtures_from_db today st ≠ some []
      ∧ (get_fixtures_from_db today st = none
          ↔ st.fixtures.filter (fun t => decide (t.date_generated = today)) = [])
      ∧ ∀ l, get_fixtures_from_db today st = some l →
          l ≠ [] ∧ l = st.fixtures.filter (fun t => decide (t.date_generated = today))) := by
  refine ⟨?_, ?_, ?_⟩
  · by_cases he : (st.players.filter (matches_query f today)).isEmpty
    · refine ⟨by simp [get_players_from_db, he], ?_, ?_⟩
      · simp [get_players_from_db, he, List.isEmpty_iff.mp he]
      · intro l hl
        simp [get_players_from_db, he] at hl
    · refine ⟨?_, ?_, ?_⟩
      · simp only [get_players_from_db, he, if_false]
        intro hcon
        simp at hcon
        exact he (by simpa using hcon)
      · simpa [get_players_from_db, he] using (by simpa [List.isEmpty_iff] using he)
      · intro l hl
        simp [get_players_from_db, he] at hl
        exact ⟨by simpa [List.isEmpty_iff, hl.symm] using he, hl.symm⟩
  · by_cases he : (st.teams.filter (fun t => decide (t.date_generated = today))).isEmpty
    · refine ⟨by simp [get_teams_from_db, he], ?_, ?_⟩
      · simp [get_teams_from_db, he, List.isEmpty_iff.mp he]
      · intro l hl
        simp [get_teams_from_db, he] at hl
    · refine ⟨?_, ?_, ?_⟩
      · simp only [get_teams_from_db, he, if_false]
        intro hcon
        simp at hcon
        exact he (by simpa using hcon)
      · simpa [get_teams_from_db, he] using (by simpa [List.isEmpty_iff] using he)
      · intro l hl
        simp [get_teams_from_db, he] at hl
        exact ⟨by simpa [List.isEmpty_iff, hl.symm] using he, hl.symm⟩
  · by_cases he : (st.fixtures.filter (fun t => decide (t.date_generated = today))).isEmpty
    · refine ⟨by simp [get_fixtures_from_db, he], ?_, ?_⟩
      · simp [get_fixtures_from_db, he, List.isEmpty_iff.mp he]
      · intro l hl
        simp [get_fixtures_from_db, he] at hl
    · refine ⟨?_, ?_, ?_⟩
      · simp only [get_fixtures_from_db, he, if_false]
        intro hcon
        simp at hcon
        exact he (by simpa using hcon)
      · simpa [get_fixtures_from_db, he] using (by simpa [List.isEmpty_iff] using he)
      · intro l hl
        simp [get_fixtures_from_db, he] at hl
        exact ⟨by simpa [List.isEmpty_iff, hl.symm] using he, hl.symm⟩

/-- Claim C10: a positions list that is present but empty imposes no
constraint at all — the filtered read behaves exactly as if the field were
absent — because the code adds the `$or` clause only when the list is
non-empty. -/
theorem empty_positions_imposes_no_constraint (f : FilterSpec) (today : String)
    (st : DbState) :
    get_players_from_db { f with positions := some [] } today st
      = get_players_from_db { f with positions := none } today st := by
  have hfun : matches_query { f with positions := some [] } today
      = matches_query { f with positions := none } today := by
    funext s
    simp [matches_query, positions_ok]
  simp [get_players_from_db, hfun]

/-- Inversion of a successful enrichment: the position lookup and the
per-million computation succeeded and the result is the explicit record. -/
lemma format_player_ok (p : RawPlayer) (q : Player) (h : format_player p = .ok q) :
    ∃ position points_per_mil,
      POSITION_LOOKUP p.element_type = .ok position
      ∧ calc_per_mil (p.total_points : ℚ) ((p.now_cost : ℚ) / 10) = .ok points_per_mil
      ∧ q = { id := p.id
            , name := p.first_name ++ " " ++ p.second_name
            , now_cost := (p.now_cost : ℚ) / 10
            , minutes := p.minutes
            , position := position
            , selected_by_percent := p.selected_by_percent
            , goal_involvements := p.goals_scored + p.assists
            , bps_per_min := calc_per_min (p.bps : ℚ) (p.minutes : ℚ)
            , clean_sheets_per_90 := calc_per_90 (p.clean_sheets : ℚ) (p.minutes : ℚ)
            , goals_conc_per_90 := calc_per_90 (p.goals_conceded : ℚ) (p.minutes : ℚ)
            , goals_scored_per_90 := calc_per_90 (p.goals_scored : ℚ) (p.minutes : ℚ)
            , assists_per_90 := calc_per_90 (p.assists : ℚ) (p.minutes : ℚ)
            , creativity_per_min := calc_per_min p.creativity (p.minutes : ℚ)
            , threat_per_min := calc_per_min p.threat (p.minutes : ℚ)
            , influence_per_min := calc_per_min p.influence (p.minutes : ℚ)
            , points_per_min := calc_per_min (p.total_points : ℚ) (p.minutes : ℚ)
            , points_per_90 := calc_per_90 (p.total_points : ℚ) (p.minutes : ℚ)
            , points_per_mil := points_per_mil
            , saves_per_90 := calc_per_90 (p.saves : ℚ) (p.minutes : ℚ) } := by
  unfold format_player at h
  split at h
  · exact absurd h (by simp)
  · split at h
    · exact absurd h (by simp)
    · simp only [Except.ok.injEq] at h
      exact ⟨_, _, by assumption, by assumption, h.symm⟩

/-- Claim C5: on every successful enrichment, `name` is the first name, one
literal space and the second name, `now_cost` is the raw cost divided by 10,
and `goal_involvements` is goals plus assists. -/
theorem format_player_base_fields (p : RawPlayer) (q : Player)
    (h : format_player p = .ok q) :
    q.name = p.first_name ++ " " ++ p.second_name
  ∧ q.now_cost = (p.now_cost : ℚ) / 10
  ∧ q.goal_involvements = p.goals_scored + p.assists := by
  obtain ⟨position, ppm, _, _, hq⟩ := format_player_ok p q h
  subst hq
  exact ⟨rfl, rfl, rfl⟩

/-- Claim C6: the per-90 helper yields round((metric / minutes) * 90, 2) and
the per-minute helper round(metric / minutes, 2) whenever minutes is
non-zero, both yield 0 when minutes is 0 (the division is guarded, so these
derived fields are total computations), and on every successful enrichment
with minutes = 0 every per-90 and per-minute field of the record is 0. -/
theorem per_90_and_per_min_guarded :
    (∀ metric minutes : ℚ, minutes = 0 →
        calc_per_min metric minutes = 0 ∧ calc_per_90 metric minutes = 0)
  ∧ (∀ metric minutes : ℚ, minutes ≠ 0 →
        calc_per_min metric minutes = roundTo 2 (metric / minutes)
      ∧ calc_per_90 metric minutes = roundTo 2 (metric / minutes * 90))
  ∧ (∀ p : RawPlayer, ∀ q : Player, format_player p = .ok q → p.minutes = 0 →
        q.bps_per_min = 0 ∧ q.clean_sheets_per_90 = 0 ∧ q.goals_conc_per_90 = 0
      ∧ q.goals_scored_per_90 = 0 ∧ q.assists_per_90 = 0 ∧ q.creativity_per_min = 0
      ∧ q.threat_per_min = 0 ∧ q.influence_per_min = 0 ∧ q.points_per_min = 0
      ∧ q.points_per_90 = 0 ∧ q.saves_per_90 = 0)
  ∧ (∀ p : RawPlayer, ∀ q : Player, format_player p = .ok q → p.minutes ≠ 0 →
        q.points_per_90 = roundTo 2 ((p.total_points : ℚ) / (p.minutes : ℚ) * 90)
      ∧ q.saves_per_90 = roundTo 2 ((p.saves : ℚ) / (p.minutes : ℚ) * 90)
      ∧ q.points_per_min = roundTo 2 ((p.total_points : ℚ) / (p.minutes : ℚ))
      ∧ q.bps_per_min = roundTo 2 ((p.bps : ℚ) / (p.minutes : ℚ))) := by
  refine ⟨?_, ?_, ?_, ?_⟩
  · intro metric minutes hm
    simp [calc_per_min, calc_per_90, hm]
  · intro metric minutes hm
    simp [calc_per_min, calc_per_90, hm]
  · intro p q h hm
    obtain ⟨position, ppm, _, _, hq⟩ := format_player_ok p q h
    have hmq : (p.minutes : ℚ) = 0 := by exact_mod_cast congrArg (Int.cast : ℤ → ℚ) hm
    subst hq
    simp [calc_per_min, calc_per_90, hmq]
  · intro p q h hm
    obtain ⟨position, ppm, _, _, hq⟩ := format_player_ok p q h
    have hmq : (p.minutes : ℚ) ≠ 0 := by exact_mod_cast hm
    subst hq
    simp [calc_per_min, calc_per_90, hmq]

/-- Claim C7: the per-million helper has no zero guard — it yields
round(metric / price, 2) for every non-zero price and raises ZeroDivisionError
for price 0 — and on every successful enrichment `points_per_mil` is computed
against the already-converted `now_cost` (the raw cost divided by 10), so a
record with converted cost 0 and a valid position code fails with
`divisionByZero`. -/
theorem per_mil_unguarded :
    (∀ metric price : ℚ, price ≠ 0 →
        calc_per_mil metric price = .ok (roundTo 2 (metric / price)))
  ∧ (∀ metric : ℚ, calc_per_mil metric 0 = .error .divisionByZero)
  ∧ (∀ p : RawPlayer, ∀ q : Player, format_player p = .ok q →
        q.now_cost = (p.now_cost : ℚ) / 10
      ∧ calc_per_mil (p.total_points : ℚ) q.now_cost = .ok q.points_per_mil)
  ∧ (∀ p : RawPlayer,
        (p.element_type = 1 ∨ p.element_type = 2 ∨ p.element_type = 3 ∨ p.element_type = 4) →
        p.now_cost = 0 → format_player p = .error .divisionByZero) := by
  refine ⟨?_, ?_, ?_, ?_⟩
  · intro metric price hp
    simp [calc_per_mil, hp]
  · intro metric
    simp [calc_per_mil]
  · intro p q h
    obtain ⟨position, ppm, _, hmil, hq⟩ := format_player_ok p q h
    subst hq
    exact ⟨rfl, hmil⟩
  · intro p het hc
    have hzero : ((p.now_cost : ℚ) / 10) = 0 := by
      rw [hc]
      norm_num
    have hmil : calc_per_mil (p.total_points : ℚ) ((p.now_cost : ℚ) / 10)
        = .error .divisionByZero := by
      simp [calc_per_mil, hzero]
    rcases het with he | he | he | he <;>
      simp [format_player, POSITION_LOOKUP, he, hmil]

/-- Claim C8: the position table maps the element types 1, 2, 3, 4 to GKP,
DEF, MID, FWD; a successful enrichment carries exactly that position; and any
element type outside the table makes the lookup — and hence the whole
enrichment — fail with `unknownPositionCode`. -/
theorem position_enrichment :
    POSITION_LOOKUP 1 = .ok "GKP" ∧ POSITION_LOOKUP 2 = .ok "DEF"
  ∧ POSITION_LOOKUP 3 = .ok "MID" ∧ POSITION_LOOKUP 4 = .ok "FWD"
  ∧ (∀ e : ℕ, e ≠ 1 → e ≠ 2 → e ≠ 3 → e ≠ 4 →
        POSITION_LOOKUP e = .error .unknownPositionCode)
  ∧ (∀ p : RawPlayer, ∀ q : Player, format_player p = .ok q →
        POSITION_LOOKUP p.element_type = .ok q.position
      ∧ (p.element_type = 1 → q.position = "GKP")
      ∧ (p.element_type = 2 → q.position = "DEF")
      ∧ (p.element_type = 3 → q.position = "MID")
      ∧ (p.element_type = 4 → q.position = "FWD"))
  ∧ (∀ p : RawPlayer, p.element_type ≠ 1 → p.element_type ≠ 2 →
        p.element_type ≠ 3 → p.element_type ≠ 4 →
        format_player p = .error .unknownPositionCode) := by
  refine ⟨by simp [POSITION_LOOKUP], by simp [POSITION_LOOKUP],
    by simp [POSITION_LOOKUP], by simp [POSITION_LOOKUP], ?_, ?_, ?_⟩
  · intro e h1 h2 h3 h4
    simp [POSITION_LOOKUP, h1, h2, h3, h4]
  · intro p q h
    obtain ⟨position, ppm, hpos, _, hq⟩ := format_player_ok p q h
    subst hq
    refine ⟨hpos, ?_, ?_, ?_, ?_⟩ <;> intro he <;>
      { rw [he] at hpos
        symm
        simpa [POSITION_LOOKUP] using hpos }
  · intro p h1 h2 h3 h4
    simp [format_player, POSITION_LOOKUP, h1, h2, h3, h4]

/-! ### Concrete runs of the orchestrator -/

/-- A valid raw player: midfielder, raw cost 50 (5.0 converted), zero
minutes. -/
def c1raw : RawPlayer :=
  { id := 7, first_name := "A", second_name := "B", now_cost := 50, minutes := 0,
    goals_scored := 2, assists := 1, clean_sheets := 1, goals_conceded := 0,
    total_points := 10, saves := 0, bps := 30, creativity := 0, threat := 0,
    influence := 0, element_type := 3, selected_by_percent := 5 }

/-- The enrichment of `c1raw`. -/
def c1player : Player :=
  { id := 7, name := "A B", now_cost := 5, minutes := 0, position := "MID",
    selected_by_percent := 5, goal_involvements := 3, bps_per_min := 0,
    clean_sheets_per_90 := 0, goals_conc_per_90 := 0, goals_scored_per_90 := 0,
    assists_per_90 := 0, creativity_per_min := 0, threat_per_min := 0,
    influence_per_min := 0, points_per_min := 0, points_per_90 := 0,
    points_per_mil := 2, saves_per_90 := 0 }

lemma c1format : format_player c1raw = .ok c1player := by
  norm_num [format_player, POSITION_LOOKUP, calc_per_min, calc_per_90, calc_per_mil,
    roundTo, round_eq, Int.floor_eq_iff, c1raw, c1player]
  decide

/-- The database after the first populate of the day 01012025. -/
def c1db1 : DbState := ⟨[⟨"7_01012025", "01012025", c1player⟩], [], []⟩

/-- Claim C1 (code bug): with an empty cache and a reachable upstream, the
first `get_players` call performs one fetch, enriches and writes the record,
and re-reads the cache — but then falls off the end of the Python function
and returns `None`, not the re-read records; the second call performs zero
fetches and returns the cached records, so the two calls do not yield
identical results. -/
theorem get_players_first_call_drops_reread :
    get_players {} "01012025" (.ok ⟨some [c1raw]⟩) ⟨[], [], []⟩ = (.pyNone, c1db1, 1)
  ∧ get_players {} "01012025" (.ok ⟨some [c1raw]⟩) c1db1
      = (.records c1db1.players, c1db1, 0)
  ∧ GetPlayersResult.pyNone ≠ .records c1db1.players := by
  refine ⟨?_, ?_, by simp⟩
  · simp [get_players, get_players_from_db, formatAll, c1format, insert_players_to_db,
      save_player, generate_uid, c1db1, c1player]
    decide
  · simp [get_players, get_players_from_db, matches_query, c1db1, min_price_ok,
      max_price_ok, min_minutes_ok, positions_ok, max_ownership_ok]

/-- Claim C3 counterexample: with an empty cache, a remote failure (network
error or timeout) makes `get_players` propagate the raw transport exception;
the result is not the no-data outcome the claim promises. -/
theorem get_players_transport_failure_not_no_data :
    get_players {} "02012025" .failure ⟨[], [], []⟩
      = (.raised .upstreamUnavailable, ⟨[], [], []⟩, 1)
  ∧ (GetPlayersResult.raised .upstreamUnavailable) ≠ .noData :=
  ⟨by simp [get_players, get_players_from_db], by nofun⟩

/-- Claim C3 (amended): on a same-day cache miss, a remote response missing
the `elements` key returns the no-data outcome (`False`), while a network
error or timeout propagates as an uncaught transport exception; in either
case the database state is unchanged — no failure is persisted — so any
subsequent same-day call performs the remote fetch again. -/
theorem get_players_miss_failure_behaviour (f : FilterSpec) (today : String)
    (st : DbState) (h : get_players_from_db f today st = none) :
    get_players f today .failure st = (.raised .upstreamUnavailable, st, 1)
  ∧ get_players f today (.ok ⟨none⟩) st = (.noData, st, 1)
  ∧ ∀ r, (get_players f today r ((get_players f today .failure st).2.1)).2.2 = 1 := by
  refine ⟨by simp [get_players, h], by simp [get_players, h], ?_⟩
  intro r
  have hst : (get_players f today .failure st).2.1 = st := by simp [get_players, h]
  rw [hst]
  cases r with
  | failure => simp [get_players, h]
  | ok data =>
    cases data with
    | mk elements =>
      cases elements with
      | none => simp [get_players, h]
      | some es =>
        cases hfa : formatAll es <;> simp [get_players, h, hfa]

theorem get_players_miss_failure_behaviour_witness :
    get_players_from_db {} "03012025" ⟨[], [], []⟩ = none
  ∧ get_players {} "03012025" .failure ⟨[], [], []⟩
      = (.raised .upstreamUnavailable, ⟨[], [], []⟩, 1) :=
  ⟨by simp [get_players_from_db],
   (get_players_miss_failure_behaviour {} "03012025" ⟨[], [], []⟩
     (by simp [get_players_from_db])).1⟩

/-! ### Witness material for the filtered read -/

/-- A stored forward at exactly the lower price bound. -/
def c2player : Player :=
  { id := 1, name := "G K", now_cost := 5, minutes := 0, position := "FWD",
    selected_by_percent := 5, goal_involvements := 0, bps_per_min := 0,
    clean_sheets_per_90 := 0, goals_conc_per_90 := 0, goals_scored_per_90 := 0,
    assists_per_90 := 0, creativity_per_min := 0, threat_per_min := 0,
    influence_per_min := 0, points_per_min := 0, points_per_90 := 0,
    points_per_mil := 0, saves_per_90 := 0 }

def c2sp : StoredPlayer := ⟨"1_04012025", "04012025", c2player⟩

def c2f : FilterSpec :=
  { min_price := some 5, max_price := some 10, positions := some ["fwd"] }

lemma c2pos : ∀ ps, c2f.positions = some ps → ps ≠ [] := by
  intro ps hps
  simp [c2f] at hps
  subst hps
  simp

lemma c2read : get_players_from_db c2f "04012025" ⟨[c2sp], [], []⟩ = some [c2sp] := by
  have hm : matches_query c2f "04012025" c2sp = true := by
    simp [matches_query, c2f, c2sp, c2player, min_price_ok, max_price_ok,
      min_minutes_ok, positions_ok, max_ownership_ok]
    exact ⟨by norm_num, by decide⟩
  simp [get_players_from_db, hm]

theorem get_players_from_db_filter_semantics_witness :
    (∀ ps, c2f.positions = some ps → ps ≠ [])
  ∧ get_players_from_db c2f "04012025" ⟨[c2sp], [], []⟩ = some [c2sp]
  ∧ (c2sp ∈ [c2sp] ↔
      c2sp ∈ (⟨[c2sp], [], []⟩ : DbState).players ∧ c2sp.date_generated = "04012025"
      ∧ (∀ m, c2f.min_price = some m → m ≤ c2sp.player.now_cost)
      ∧ (∀ m, c2f.max_price = some m → c2sp.player.now_cost ≤ m)
      ∧ (∀ m, c2f.min_minutes_played = some m → m ≤ c2sp.player.minutes)
      ∧ (∀ ps, c2f.positions = some ps → ∃ p ∈ ps, upper p = c2sp.player.position)
      ∧ (∀ m, c2f.max_ownership = some m → c2sp.player.selected_by_percent ≤ m)) :=
  ⟨c2pos, c2read,
   get_players_from_db_filter_semantics c2f "04012025" ⟨[c2sp], [], []⟩ [c2sp] c2sp
     c2pos c2read⟩

theorem db_reads_distinguish_miss_from_empty_witness :
    get_players_from_db {} "05012025" ⟨[], [], []⟩ = none
      ↔ (⟨[], [], []⟩ : DbState).players.filter (matches_query {} "05012025") = [] :=
  (db_reads_distinguish_miss_from_empty {} "05012025" ⟨[], [], []⟩).1.2.1

/-! ### Witness material for the enrichment claims -/

theorem format_player_base_fields_witness :
    format_player c1raw = .ok c1player
  ∧ c1player.name = c1raw.first_name ++ " " ++ c1raw.second_name
  ∧ c1player.now_cost = (c1raw.now_cost : ℚ) / 10
  ∧ c1player.goal_involvements = c1raw.goals_scored + c1raw.assists :=
  ⟨c1format, format_player_base_fields c1raw c1player c1format⟩

theorem per_90_and_per_min_guarded_witness :
    (calc_per_min 3 0 = 0 ∧ calc_per_90 3 0 = 0)
  ∧ (calc_per_min 3 2 = roundTo 2 (3 / 2) ∧ calc_per_90 3 2 = roundTo 2 (3 / 2 * 90))
  ∧ (c1player.bps_per_min = 0 ∧ c1player.points_per_90 = 0) :=
  ⟨per_90_and_per_min_guarded.1 3 0 rfl,
   per_90_and_per_min_guarded.2.1 3 2 (by norm_num),
   (per_90_and_per_min_guarded.2.2.1 c1raw c1player c1format rfl).1,
   (per_90_and_per_min_guarded.2.2.1 c1raw c1player c1format rfl).2.2.2.2.2.2.2.2.2.1⟩

/-- A raw player with a valid position code and raw cost 0. -/
def c7zero : RawPlayer := { c1raw with element_type := 1, now_cost := 0 }

theorem per_mil_unguarded_witness :
    calc_per_mil 10 5 = .ok (roundTo 2 (10 / 5))
  ∧ calc_per_mil 10 0 = .error .divisionByZero
  ∧ format_player c7zero = .error .divisionByZero :=
  ⟨per_mil_unguarded.1 10 5 (by norm_num), per_mil_unguarded.2.1 10,
   per_mil_unguarded.2.2.2 c7zero (Or.inl rfl) rfl⟩

/-- A raw player with the unmapped position code 9. -/
def c8bad : RawPlayer := { c1raw with element_type := 9 }

theorem position_enrichment_witness :
    POSITION_LOOKUP 9 = .error .unknownPositionCode
  ∧ POSITION_LOOKUP c1raw.element_type = .ok c1player.position
  ∧ format_player c8bad = .error .unknownPositionCode :=
  ⟨position_enrichment.2.2.2.2.1 9 (by decide) (by decide) (by decide) (by decide),
   (position_enrichment.2.2.2.2.2.1 c1raw c1player c1format).1,
   position_enrichment.2.2.2.2.2.2 c8bad (by decide) (by decide) (by decide) (by decide)⟩

end SuperFpl
